import Mathlib

/-!
Verification of the speedtest-telemetry capture pipeline.

Shallow embedding of the two pipeline scripts
`src/scripts/ops/speedtest-stats.py` (full variant) and
`src/scripts/speedtest-log.py` (legacy variant).

Modelling conventions:
* Python strings are Lean `String`s; the character-level helpers below model
  the Python string methods used by the scripts (`strip`, `split`, `splitlines`,
  `lower`, `startswith`, the `in` containment test, `rstrip("\n")`, slicing).
  `str.isspace` / `str.strip` whitespace and `str.splitlines` line-boundary
  character classes follow the CPython definitions (ASCII and the documented
  Unicode code points); `str.lower` is modelled on ASCII letters (identity on
  other code points, which is exact for the ASCII patterns the scripts match).
* The external world (process launches) is a pure oracle
  `env : String → LaunchOutcome`; a Python exception raised while launching is
  the `LaunchOutcome.failure` case, carrying the `f"{ty}: {e}"` description.
* Files are modelled as `Option String` (`none` = absent, `some c` = content
  as the on-disk bytes); reading a text file applies universal-newline
  translation (`\r\n`/`\r` ↦ `\n`) exactly as Python's text-mode `open` does.
  An I/O error while reading an existing file (the `CSV_READ_ERROR` branch)
  is an environmental condition outside this file model and is not modelled.
* Diagnostic events keep the fields `ts`, `level`, `phase`, `reason` plus the
  remaining context keys of each `log_diag` call, in source order.
* `main` of each script additionally returns the list of external-command
  invocations (call site + command string), the "fake CommandRunner call log"
  used by the temporal claims.
-/

namespace Speedtest

/-! ### Character classes (CPython definitions) -/

/-- Characters `str.splitlines` treats as line boundaries
(`\r\n` is handled as a single boundary in `splitlinesAux`). -/
def isLineBreak (c : Char) : Bool :=
  c == '\n' || c == '\r' || c == '\x0b' || c == '\x0c' ||
  c == '\x1c' || c == '\x1d' || c == '\x1e' || c == '\x85' ||
  c == '\u2028' || c == '\u2029'

/-- Characters `str.isspace` is true of; `str.strip()` and no-argument
`str.split()` strip exactly these. -/
def pyIsSpace (c : Char) : Bool :=
  c == ' ' || c == '\t' || c == '\n' || c == '\r' || c == '\x0b' || c == '\x0c' ||
  c == '\x1c' || c == '\x1d' || c == '\x1e' || c == '\x1f' || c == '\x85' ||
  c == '\xa0' || c == '\u1680' || ('\u2000' ≤ c && c ≤ '\u200a') ||
  c == '\u2028' || c == '\u2029' || c == '\u202f' || c == '\u205f' || c == '\u3000'

/-! ### List-level string primitives -/

/-- `pre` is a leading segment of the second list (Python `startswith`). -/
def isPrefixL : List Char → List Char → Bool
  | [], _ => true
  | _ :: _, [] => false
  | a :: as, b :: bs => a == b && isPrefixL as bs

/-- `pat` occurs contiguously in the second list (Python `pat in hay`). -/
def containsSubL (pat : List Char) : List Char → Bool
  | [] => isPrefixL pat []
  | b :: bs => isPrefixL pat (b :: bs) || containsSubL pat bs

/-- Python `str.strip()`: drop `pyIsSpace` characters from both ends. -/
def stripL (cs : List Char) : List Char :=
  ((cs.dropWhile pyIsSpace).reverse.dropWhile pyIsSpace).reverse

/-- Python `str.rstrip("\n")`: drop trailing `'\n'` characters only. -/
def rstripNlL (cs : List Char) : List Char :=
  (cs.reverse.dropWhile (fun c => c == '\n')).reverse

/-- Python `str.split(",")` (accumulator holds the current field reversed):
no merging, empty fields kept, `"" ↦ [""]`. -/
def splitCommaAux (acc : List Char) : List Char → List (List Char)
  | [] => [acc.reverse]
  | c :: rest =>
    if c == ',' then acc.reverse :: splitCommaAux [] rest
    else splitCommaAux (c :: acc) rest

/-- No-argument Python `str.split()`: split on runs of whitespace,
no empty fields. -/
def splitWsAux (acc : List Char) : List Char → List (List Char)
  | [] => if acc = [] then [] else [acc.reverse]
  | c :: rest =>
    if pyIsSpace c then
      if acc = [] then splitWsAux [] rest
      else acc.reverse :: splitWsAux [] rest
    else splitWsAux (c :: acc) rest

/-- Python `str.splitlines()`: split at each line boundary, `\r\n` counting
as one boundary; no trailing empty piece for a trailing boundary. -/
def splitlinesAux (acc : List Char) : List Char → List (List Char)
  | [] => if acc = [] then [] else [acc.reverse]
  | c :: rest =>
    if c = '\r' then
      match rest with
      | [] => acc.reverse :: splitlinesAux [] []
      | d :: rest2 =>
        if d = '\n' then acc.reverse :: splitlinesAux [] rest2
        else acc.reverse :: splitlinesAux [] (d :: rest2)
    else if isLineBreak c then acc.reverse :: splitlinesAux [] rest
    else splitlinesAux (c :: acc) rest

/-- Universal-newline translation performed by Python's text-mode `open` for
reading: `\r\n ↦ \n` and lone `\r ↦ \n`. -/
def translateNl : List Char → List Char
  | [] => []
  | c :: rest =>
    if c = '\r' then
      match rest with
      | [] => '\n' :: translateNl []
      | d :: rest2 =>
        if d = '\n' then '\n' :: translateNl rest2
        else '\n' :: translateNl (d :: rest2)
    else c :: translateNl rest

/-- `f.readline()` followed by `f.read()`: the first component is the first
line including its `'\n'` (or the whole stream when it has none), the second
is the remainder. -/
def readlineSplitL : List Char → List Char × List Char
  | [] => ([], [])
  | c :: rest =>
    if c = '\n' then ([c], rest)
    else
      let p := readlineSplitL rest
      (c :: p.1, p.2)

/-- Python `str.lower()` restricted to ASCII letters (the only characters the
scripts' lowercase patterns contain). -/
def asciiLower (c : Char) : Char :=
  if 'A' ≤ c && c ≤ 'Z' then Char.ofNat (c.toNat + 32) else c

/-! ### String wrappers -/

def pyStrip (s : String) : String := ⟨stripL s.data⟩

def rstripNl (s : String) : String := ⟨rstripNlL s.data⟩

/-- Python `pat in hay`. -/
def pyContains (hay pat : String) : Bool := containsSubL pat.data hay.data

/-- Python `s.startswith(pre)`. -/
def pyStartsWith (s pre : String) : Bool := isPrefixL pre.data s.data

def pyLower (s : String) : String := ⟨s.data.map asciiLower⟩

def pySplitComma (s : String) : List String := (splitCommaAux [] s.data).map (⟨·⟩)

def pySplitWs (s : String) : List String := (splitWsAux [] s.data).map (⟨·⟩)

def pySplitlines (s : String) : List String := (splitlinesAux [] s.data).map (⟨·⟩)

/-- Contents of a text file as Python's text-mode `open(path, "r")` delivers
them (universal newlines). -/
def pyRead (s : String) : String := ⟨translateNl s.data⟩

/-- Python slicing `s[:n]`. -/
def pyTake (n : Nat) (s : String) : String := ⟨s.data.take n⟩

/-- The first line `f.readline()` returns on the (newline-translated) file
content, including its `'\n'` when present. -/
def readFirst (raw : String) : String := ⟨(readlineSplitL (pyRead raw).data).1⟩

/-- What `f.read()` returns after that `readline()`. -/
def readRest (raw : String) : String := ⟨(readlineSplitL (pyRead raw).data).2⟩

/-! ### Configuration and command execution -/

/-- `CSV_HEADER` of both scripts (speedtest-stats.py lines 41–45). -/
def CSV_HEADER : String :=
  "timestamp,download_mbps,upload_mbps,ping_ms,jitter_ms,packet_loss," ++
  "server_name,server_id,isp,gw_ping_ms,gw_loss_pct,cf_ping_ms,cf_loss_pct," ++
  "g_ping_ms,g_loss_pct,dns_ms,http_ms,wifi_iface,wifi_ssid,wifi_band,status,error"

/-- `CSV_FIELD_COUNT = len(CSV_HEADER.split(","))`. -/
def CSV_FIELD_COUNT : Nat := (pySplitComma CSV_HEADER).length

/-- Result of attempting to launch an external process: either it ran
(exit code, raw stdout, raw stderr), or launching raised an exception whose
`f"{type(e).__name__}: {e}"` description is recorded. -/
inductive LaunchOutcome where
  | ok (rc : Int) (stdout stderr : String)
  | failure (desc : String)
deriving DecidableEq

/-- The scripts' command runner (named `run_cmd` in the source, identical in
both scripts): run the command, strip both captured streams; on an exception
while launching, return the synthetic triple `(1, "", description)` instead
of raising. -/
def runCmd (env : String → LaunchOutcome) (cmd : String) : Int × String × String :=
  match env cmd with
  | .ok rc o e => (rc, pyStrip o, pyStrip e)
  | .failure d => (1, "", d)

/-- One structured diagnostic record handed to `log_diag`: the mandatory
keys and the remaining context keys in source order. -/
structure DiagEvent where
  ts : String
  level : String
  phase : String
  reason : String
  extra : List (String × String)
deriving DecidableEq

/-- `append_line(path, text)`: append-mode open creates a missing file;
the written line is `text.rstrip("\n") + "\n"`. -/
def append_line (file : Option String) (text : String) : Option String :=
  some ((file.getD "") ++ rstripNl text ++ "\n")

/-! ### DurableLog: ensure_csv_header (speedtest-stats.py lines 87–138) -/

/-- The per-line filter of the header-repair loop: a line is written back
iff it is non-blank and its stripped form does not start with `timestamp`. -/
def keepDataLine (line : String) : Bool :=
  if pyStrip line = "" then false
  else if pyStartsWith (pyStrip line) "timestamp" then false
  else true

/-- Concatenation of `line + "\n"` for each line, in order — the body the
repair loop writes after the header. -/
def joinLines : List String → String
  | [] => ""
  | l :: ls => l ++ "\n" ++ joinLines ls

/-- `ensure_csv_header(path)`: create the file with just the header when
absent; no-op when the stripped first line already equals `CSV_HEADER`;
otherwise rewrite it as header + kept lines of the rest (each written as
`line.rstrip("\n") + "\n"`) and emit the INFO `CSV_HEADER_FIXED` event.
`path` only feeds the event's `csv_path` key; `now` is the `iso_now()`
timestamp `log_diag` stamps on the event.  The unreadable-file branch
(`CSV_READ_ERROR`) is an I/O failure outside the file model. -/
def ensure_csv_header (path now : String) (file : Option String) :
    Option String × List DiagEvent :=
  match file with
  | none => (some (CSV_HEADER ++ "\n"), [])
  | some raw =>
    if pyStrip (readFirst raw) = CSV_HEADER then (some raw, [])
    else
      (some (CSV_HEADER ++ "\n" ++
         joinLines (((pySplitlines (readRest raw)).filter keepDataLine).map rstripNl)),
       [⟨now, "INFO", "init", "CSV_HEADER_FIXED", [("csv_path", path)]⟩])

/-! ### Network state checks -/

/-- Scan of `ip route show default` output lines for
`default via <gw> dev <dev> ...` (whitespace-split; first matching line;
gateway = token 3, device = token 5). -/
def findRoute : List String → Option String × Option String
  | [] => (none, none)
  | line :: rest =>
    let parts := pySplitWs line
    if 5 ≤ parts.length ∧ parts.getD 0 "" = "default" ∧ parts.getD 1 "" = "via" then
      (some (parts.getD 2 ""), some (parts.getD 4 ""))
    else findRoute rest

/-- `get_default_route()`: `(None, None)` when the query fails or prints
nothing, else the first parsed `default via` line. -/
def get_default_route (env : String → LaunchOutcome) : Option String × Option String :=
  let r := runCmd env "ip route show default"
  if r.1 ≠ 0 ∨ r.2.1 = "" then (none, none)
  else findRoute (pySplitlines r.2.1)

/-- `check_iface(iface)`. -/
def check_iface (env : String → LaunchOutcome) (iface : String) :
    Bool × String × List (String × String) :=
  let r := runCmd env ("ip link show " ++ iface)
  if r.1 ≠ 0 then (false, "IFACE_NOT_FOUND", [("stderr", r.2.2)])
  else if pyContains r.2.1 "state DOWN" then (false, "IFACE_DOWN", [("ip_link", r.2.1)])
  else (true, "OK", [("ip_link", r.2.1)])

/-- `check_ip_address(iface)`. -/
def check_ip_address (env : String → LaunchOutcome) (iface : String) :
    Bool × String × List (String × String) :=
  let r := runCmd env ("ip -4 addr show dev " ++ iface)
  if r.1 ≠ 0 then (false, "ADDR_CMD_ERROR", [("stderr", r.2.2)])
  else if pyContains r.2.1 "inet " then (true, "OK", [("ip_addr", r.2.1)])
  else (false, "NO_IP_ADDR", [("ip_addr", r.2.1)])

/-- `check_gateway(gateway_ip)`. -/
def check_gateway (env : String → LaunchOutcome) (gateway_ip : String) :
    Bool × String × List (String × String) :=
  let r := runCmd env ("ping -c 1 -W 2 " ++ gateway_ip)
  let extra := [("ping_stdout", r.2.1), ("ping_stderr", r.2.2)]
  if r.1 ≠ 0 then (false, "GATEWAY_UNREACH", extra)
  else (true, "OK", extra)

/-! ### Speedtest classification and validation -/

/-- `classify_speedtest_error(stderr)` (speedtest-stats.py lines 215–229,
identical in speedtest-log.py): ordered substring rules. -/
def classify_speedtest_error (stderr : String) : String :=
  if pyContains stderr "NotFoundException" then "SPEEDTEST_IFACE_NOT_FOUND"
  else if pyContains stderr "Network unreachable" then "SPEEDTEST_NET_UNREACH"
  else if pyContains (pyLower stderr) "timeout" then "SPEEDTEST_TIMEOUT"
  else if pyContains (pyLower stderr) "permission denied" then "SPEEDTEST_PERMISSION"
  else if stderr = "" then "SPEEDTEST_UNKNOWN"
  else "SPEEDTEST_ERROR"

/-- `validate_csv_line(line)` (speedtest-stats.py lines 232–238). -/
def validate_csv_line (line : String) : Bool :=
  ((pySplitComma line).map pyStrip).length = CSV_FIELD_COUNT

/-! ### Main workflows -/

/-- The configuration environment variables read at module load. -/
structure Config where
  csvPath : String
  iface : String
  speedtestCmd : String
  /-- `SPEEDTEST_GATEWAY_IP`; `""` = unset. -/
  gatewayIp : String
deriving DecidableEq

/-- Call sites at which the scripts invoke an external command, identifying
entries of the instrumented call log. -/
inductive Site where
  | routeQuery
  | linkQuery
  | addrQuery
  | gwPing
  | speedtest
deriving DecidableEq

/-- Observable outcome of one run of a script's `main`: the value `main`
returns (the process exit code), the final CSV file, the diagnostic events
in emission order, and the external-command call log in invocation order. -/
structure RunResult where
  exitCode : Int
  csv : Option String
  events : List DiagEvent
  trace : List (Site × String)
deriving DecidableEq

/-- Python truthiness of `gw_ip : Optional[str]`. -/
def truthy : Option String → Bool
  | none => false
  | some s => if s = "" then false else true

/-- The `gw_ip` value after step 1 of `main`: the configured override when
non-empty, otherwise the parsed default route's gateway. -/
def gwOf (env : String → LaunchOutcome) (cfg : Config) : Option String :=
  if cfg.gatewayIp = "" then (get_default_route env).1 else some cfg.gatewayIp

/-- `main()` of `src/scripts/ops/speedtest-stats.py` (lines 243–362):
header ensure, gateway discovery, the four-fail-fast prechecks, speedtest
run, classification, shape validation, append.  Every return site of the
source returns 0. -/
def mainStats (env : String → LaunchOutcome) (cfg : Config) (ts : String)
    (csv0 : Option String) : RunResult :=
  let e0 := ensure_csv_header cfg.csvPath ts csv0
  let csv1 := e0.1
  let ev0 := e0.2
  let gw := gwOf env cfg
  let trace0 : List (Site × String) :=
    if cfg.gatewayIp = "" then [(Site.routeQuery, "ip route show default")] else []
  let ci := check_iface env cfg.iface
  let trace1 := trace0 ++ [(Site.linkQuery, "ip link show " ++ cfg.iface)]
  if !ci.1 then
    ⟨0, csv1, ev0 ++ [⟨ts, "ERROR", "precheck", ci.2.1, ("iface", cfg.iface) :: ci.2.2⟩], trace1⟩
  else
    let ca := check_ip_address env cfg.iface
    let trace2 := trace1 ++ [(Site.addrQuery, "ip -4 addr show dev " ++ cfg.iface)]
    if !ca.1 then
      ⟨0, csv1, ev0 ++ [⟨ts, "ERROR", "precheck", ca.2.1, ("iface", cfg.iface) :: ca.2.2⟩], trace2⟩
    else if !truthy gw then
      ⟨0, csv1, ev0 ++ [⟨ts, "ERROR", "precheck", "NO_DEFAULT_ROUTE", [("iface", cfg.iface)]⟩], trace2⟩
    else
      let gws := gw.getD ""
      let cg := check_gateway env gws
      let trace3 := trace2 ++ [(Site.gwPing, "ping -c 1 -W 2 " ++ gws)]
      if !cg.1 then
        ⟨0, csv1, ev0 ++ [⟨ts, "ERROR", "precheck", cg.2.1,
           ("iface", cfg.iface) :: ("gateway_ip", gws) :: cg.2.2⟩], trace3⟩
      else
        let st := runCmd env cfg.speedtestCmd
        let trace4 := trace3 ++ [(Site.speedtest, cfg.speedtestCmd)]
        if st.1 ≠ 0 then
          ⟨0, csv1, ev0 ++ [⟨ts, "ERROR", "speedtest", classify_speedtest_error st.2.2,
             [("iface", cfg.iface), ("gateway_ip", gws), ("stderr", pyTake 500 st.2.2)]⟩], trace4⟩
        else if st.2.1 = "" then
          ⟨0, csv1, ev0 ++ [⟨ts, "WARN", "speedtest", "EMPTY_OUTPUT",
             [("iface", cfg.iface), ("gateway_ip", gws)]⟩], trace4⟩
        else if !validate_csv_line st.2.1 then
          ⟨0, csv1, ev0 ++ [⟨ts, "ERROR", "speedtest", "BAD_CSV_FORMAT",
             [("iface", cfg.iface), ("gateway_ip", gws), ("line_sample", pyTake 500 st.2.1)]⟩], trace4⟩
        else
          ⟨0, append_line csv1 st.2.1, ev0 ++ [⟨ts, "INFO", "speedtest", "OK",
             [("iface", cfg.iface), ("gateway_ip", gws)]⟩], trace4⟩

/-- `main()` of the legacy `src/scripts/speedtest-log.py` (lines 165–267):
identical to `mainStats` except that it performs no header ensure/repair and
no CSV shape validation.  Every return site of the source returns 0. -/
def mainLog (env : String → LaunchOutcome) (cfg : Config) (ts : String)
    (csv0 : Option String) : RunResult :=
  let gw := gwOf env cfg
  let trace0 : List (Site × String) :=
    if cfg.gatewayIp = "" then [(Site.routeQuery, "ip route show default")] else []
  let ci := check_iface env cfg.iface
  let trace1 := trace0 ++ [(Site.linkQuery, "ip link show " ++ cfg.iface)]
  if !ci.1 then
    ⟨0, csv0, [⟨ts, "ERROR", "precheck", ci.2.1, ("iface", cfg.iface) :: ci.2.2⟩], trace1⟩
  else
    let ca := check_ip_address env cfg.iface
    let trace2 := trace1 ++ [(Site.addrQuery, "ip -4 addr show dev " ++ cfg.iface)]
    if !ca.1 then
      ⟨0, csv0, [⟨ts, "ERROR", "precheck", ca.2.1, ("iface", cfg.iface) :: ca.2.2⟩], trace2⟩
    else if !truthy gw then
      ⟨0, csv0, [⟨ts, "ERROR", "precheck", "NO_DEFAULT_ROUTE", [("iface", cfg.iface)]⟩], trace2⟩
    else
      let gws := gw.getD ""
      let cg := check_gateway env gws
      let trace3 := trace2 ++ [(Site.gwPing, "ping -c 1 -W 2 " ++ gws)]
      if !cg.1 then
        ⟨0, csv0, [⟨ts, "ERROR", "precheck", cg.2.1,
           ("iface", cfg.iface) :: ("gateway_ip", gws) :: cg.2.2⟩], trace3⟩
      else
        let st := runCmd env cfg.speedtestCmd
        let trace4 := trace3 ++ [(Site.speedtest, cfg.speedtestCmd)]
        if st.1 ≠ 0 then
          ⟨0, csv0, [⟨ts, "ERROR", "speedtest", classify_speedtest_error st.2.2,
             [("iface", cfg.iface), ("gateway_ip", gws), ("stderr", pyTake 500 st.2.2)]⟩], trace4⟩
        else if st.2.1 = "" then
          ⟨0, csv0, [⟨ts, "WARN", "speedtest", "EMPTY_OUTPUT",
             [("iface", cfg.iface), ("gateway_ip", gws)]⟩], trace4⟩
        else
          ⟨0, append_line csv0 st.2.1, [⟨ts, "INFO", "speedtest", "OK",
             [("iface", cfg.iface), ("gateway_ip", gws)]⟩], trace4⟩

/-! ### Concrete fixtures used to instantiate theorems -/

/-- The scripts' default configuration values. -/
def cfgW : Config :=
  { csvPath := "/var/lib/speedtest-telemetry/speedtest.csv"
    iface := "wlp2s0"
    speedtestCmd := "/usr/local/bin/speedtest-telemetry --format=csv"
    gatewayIp := "" }

/-- A well-formed 22-field measurement row (spec end-to-end scenario 2). -/
def rowW : String := "2024-01-01T00:00:00Z,100,20,10,1,0,srv,1,ISP,,,,,,,,,,,,ok,"

/-- An environment in which every precondition passes and the measurement
command succeeds with `rowW` on stdout. -/
def envW : String → LaunchOutcome := fun cmd =>
  if cmd = "ip route show default" then
    .ok 0 "default via 10.0.0.1 dev wlp2s0 proto dhcp\n" ""
  else if cmd = "ip link show wlp2s0" then
    .ok 0 "2: wlp2s0: <BROADCAST> mtu 1500 state UP\n" ""
  else if cmd = "ip -4 addr show dev wlp2s0" then
    .ok 0 "    inet 192.168.1.7/24\n" ""
  else if cmd = "ping -c 1 -W 2 10.0.0.1" then
    .ok 0 "1 packets transmitted, 1 received" ""
  else if cmd = "/usr/local/bin/speedtest-telemetry --format=csv" then
    .ok 0 (rowW ++ "\n") ""
  else .failure "FileNotFoundError: [Errno 2] No such file or directory"

/-- Like `envW`, except the measurement command prints the canonical CSV
header line itself. -/
def envHdrW : String → LaunchOutcome := fun cmd =>
  if cmd = "/usr/local/bin/speedtest-telemetry --format=csv" then
    .ok 0 (CSV_HEADER ++ "\n") ""
  else envW cmd

/-- An environment in which the interface link query fails (exit 1), so the
interface precondition fails. -/
def envIfaceFailW : String → LaunchOutcome := fun cmd =>
  if cmd = "ip route show default" then
    .ok 0 "default via 10.0.0.1 dev wlp2s0 proto dhcp\n" ""
  else if cmd = "ip link show wlp2s0" then
    .ok 1 "" "Device \"wlp2s0\" does not exist.\n"
  else .failure "FileNotFoundError: [Errno 2] No such file or directory"

/-- An environment in which the interface is up but the IPv4 address query
fails (exit 1), so the address precondition fails. -/
def envAddrFailW : String → LaunchOutcome := fun cmd =>
  if cmd = "ip route show default" then
    .ok 0 "default via 10.0.0.1 dev wlp2s0 proto dhcp\n" ""
  else if cmd = "ip link show wlp2s0" then
    .ok 0 "2: wlp2s0: <BROADCAST> mtu 1500 state UP\n" ""
  else if cmd = "ip -4 addr show dev wlp2s0" then
    .ok 1 "" "Cannot find device \"wlp2s0\"\n"
  else .failure "FileNotFoundError: [Errno 2] No such file or directory"

/-- An environment in which interface and address checks pass but the
default-route query prints nothing, so no gateway is discovered. -/
def envNoRouteW : String → LaunchOutcome := fun cmd =>
  if cmd = "ip route show default" then
    .ok 0 "" ""
  else if cmd = "ip link show wlp2s0" then
    .ok 0 "2: wlp2s0: <BROADCAST> mtu 1500 state UP\n" ""
  else if cmd = "ip -4 addr show dev wlp2s0" then
    .ok 0 "    inet 192.168.1.7/24\n" ""
  else .failure "FileNotFoundError: [Errno 2] No such file or directory"

/-- An environment in which interface, address and route discovery succeed
but the gateway ping probe fails (exit 1). -/
def envGwFailW : String → LaunchOutcome := fun cmd =>
  if cmd = "ip route show default" then
    .ok 0 "default via 10.0.0.1 dev wlp2s0 proto dhcp\n" ""
  else if cmd = "ip link show wlp2s0" then
    .ok 0 "2: wlp2s0: <BROADCAST> mtu 1500 state UP\n" ""
  else if cmd = "ip -4 addr show dev wlp2s0" then
    .ok 0 "    inet 192.168.1.7/24\n" ""
  else if cmd = "ping -c 1 -W 2 10.0.0.1" then
    .ok 1 "" "1 packets transmitted, 0 received, 100% packet loss\n"
  else .failure "FileNotFoundError: [Errno 2] No such file or directory"

/-- An environment in which every launch attempt raises. -/
def envLaunchFailW : String → LaunchOutcome := fun _ =>
  .failure "FileNotFoundError: [Errno 2] No such file or directory: 'ip'"

set_option maxRecDepth 40000

/-! ### Shared lemmas -/

/-- On the success path (all prechecks pass, measurement succeeds with
non-empty valid output) `mainStats` appends the stripped stdout line to the
post-ensure CSV and emits the INFO/OK event after any ensure events. -/
theorem mainStats_success (env : String → LaunchOutcome) (cfg : Config)
    (ts : String) (csv0 : Option String)
    (h1 : (check_iface env cfg.iface).1 = true)
    (h2 : (check_ip_address env cfg.iface).1 = true)
    (h3 : truthy (gwOf env cfg) = true)
    (h4 : (check_gateway env ((gwOf env cfg).getD "")).1 = true)
    (h5 : (runCmd env cfg.speedtestCmd).1 = 0)
    (h6 : ¬ (runCmd env cfg.speedtestCmd).2.1 = "")
    (h7 : validate_csv_line ((runCmd env cfg.speedtestCmd).2.1) = true) :
    mainStats env cfg ts csv0 =
      ⟨0, append_line (ensure_csv_header cfg.csvPath ts csv0).1 ((runCmd env cfg.speedtestCmd).2.1),
       (ensure_csv_header cfg.csvPath ts csv0).2 ++
         [⟨ts, "INFO", "speedtest", "OK",
           [("iface", cfg.iface), ("gateway_ip", (gwOf env cfg).getD "")]⟩],
       (if cfg.gatewayIp = "" then [(Site.routeQuery, "ip route show default")] else []) ++
         [(Site.linkQuery, "ip link show " ++ cfg.iface),
          (Site.addrQuery, "ip -4 addr show dev " ++ cfg.iface),
          (Site.gwPing, "ping -c 1 -W 2 " ++ (gwOf env cfg).getD ""),
          (Site.speedtest, cfg.speedtestCmd)]⟩ := by
  unfold mainStats
  dsimp only
  simp [h1, h2, h3, h4, h5, h6, h7]

/-- The same success path for the legacy `mainLog`: it appends the stripped
stdout line to the starting CSV and emits exactly the INFO/OK event. -/
theorem mainLog_success (env : String → LaunchOutcome) (cfg : Config)
    (ts : String) (csv0 : Option String)
    (h1 : (check_iface env cfg.iface).1 = true)
    (h2 : (check_ip_address env cfg.iface).1 = true)
    (h3 : truthy (gwOf env cfg) = true)
    (h4 : (check_gateway env ((gwOf env cfg).getD "")).1 = true)
    (h5 : (runCmd env cfg.speedtestCmd).1 = 0)
    (h6 : ¬ (runCmd env cfg.speedtestCmd).2.1 = "") :
    mainLog env cfg ts csv0 =
      ⟨0, append_line csv0 ((runCmd env cfg.speedtestCmd).2.1),
       [⟨ts, "INFO", "speedtest", "OK",
         [("iface", cfg.iface), ("gateway_ip", (gwOf env cfg).getD "")]⟩],
       (if cfg.gatewayIp = "" then [(Site.routeQuery, "ip route show default")] else []) ++
         [(Site.linkQuery, "ip link show " ++ cfg.iface),
          (Site.addrQuery, "ip -4 addr show dev " ++ cfg.iface),
          (Site.gwPing, "ping -c 1 -W 2 " ++ (gwOf env cfg).getD ""),
          (Site.speedtest, cfg.speedtestCmd)]⟩ := by
  unfold mainLog
  dsimp only
  simp [h1, h2, h3, h4, h5, h6]

/-- The head of a `dropWhile p` result does not satisfy `p`. -/
theorem dropWhile_head_not (p : Char → Bool) :
    ∀ (l : List Char) (c : Char), (l.dropWhile p).head? = some c → p c = false := by
  intro l
  induction l with
  | nil => intro c h; simp [List.dropWhile] at h
  | cons x xs ih =>
    intro c h
    by_cases hx : p x
    · rw [List.dropWhile_cons_of_pos hx] at h
      exact ih c h
    · rw [List.dropWhile_cons_of_neg hx] at h
      simp at h
      rw [← h]
      exact Bool.eq_false_iff.mpr hx

/-- A stripped string has no trailing newline: `rstrip("\n")` after
`strip()` is the identity. -/
theorem rstripNlL_stripL (cs : List Char) : rstripNlL (stripL cs) = stripL cs := by
  unfold rstripNlL stripL
  rw [List.reverse_reverse]
  cases h : (cs.dropWhile pyIsSpace).reverse.dropWhile pyIsSpace with
  | nil => simp
  | cons c rest =>
    have hc : pyIsSpace c = false := by
      apply dropWhile_head_not pyIsSpace ((cs.dropWhile pyIsSpace).reverse)
      rw [h]; rfl
    have hcn : ¬ (c == '\n') = true := by
      intro hb
      have hce : c = '\n' := by simpa using hb
      subst hce
      simp [pyIsSpace] at hc
    simp [List.dropWhile_cons, hcn]

/-- The stdout component of a `runCmd` result is already stripped, so
`rstrip("\n")` leaves it unchanged. -/
theorem runCmd_stdout_rstrip (env : String → LaunchOutcome) (cmd : String) :
    rstripNl (runCmd env cmd).2.1 = (runCmd env cmd).2.1 := by
  unfold runCmd
  cases h : env cmd <;> simp only [h]
  case ok rc o e =>
    show (⟨rstripNlL (stripL o.data)⟩ : String) = ⟨stripL o.data⟩
    rw [rstripNlL_stripL]
  case failure d => rfl

/-- Unfolding equation of `splitlinesAux` on a cons whose head is not
`'\r'`. -/
theorem splitlinesAux_cons_not_cr (acc : List Char) (c : Char) (rest : List Char)
    (h : ¬ c = '\r') :
    splitlinesAux acc (c :: rest) =
      if isLineBreak c then acc.reverse :: splitlinesAux [] rest
      else splitlinesAux (c :: acc) rest := by
  conv_lhs => rw [splitlinesAux.eq_def]
  dsimp only
  rw [if_neg h]

/-- `splitlines` over `a ++ "\n" ++ b` with boundary-free `a` yields `a`
as the first piece. -/
theorem splitlinesAux_append_nl :
    ∀ (a : List Char), (∀ c ∈ a, isLineBreak c = false) → ∀ (acc b : List Char),
      splitlinesAux acc (a ++ '\n' :: b) = (acc.reverse ++ a) :: splitlinesAux [] b := by
  intro a
  induction a with
  | nil =>
    intro _ acc b
    rw [List.nil_append, splitlinesAux_cons_not_cr _ _ _ (by decide),
      if_pos (show isLineBreak '\n' = true by decide), List.append_nil]
  | cons c a' ih =>
    intro h acc b
    have hc : isLineBreak c = false := h c (List.mem_cons_self c a')
    have hcr : ¬ c = '\r' := by
      intro he; subst he; simp [isLineBreak] at hc
    rw [List.cons_append, splitlinesAux_cons_not_cr _ _ _ hcr, if_neg (by simp [hc]),
      ih (fun x hx => h x (List.mem_cons_of_mem c hx)) (c :: acc) b]
    simp

/-- `splitlines` is a left inverse of joining boundary-free lines with
`"\n"` terminators. -/
theorem splitlinesAux_flatten (ls : List (List Char))
    (h : ∀ l ∈ ls, ∀ c ∈ l, isLineBreak c = false) :
    splitlinesAux [] ((ls.map (· ++ ['\n'])).flatten) = ls := by
  induction ls with
  | nil => rfl
  | cons l ls ih =>
    rw [List.map_cons, List.flatten_cons, List.append_assoc, List.singleton_append,
      splitlinesAux_append_nl l (h l (List.mem_cons_self l ls)) [] _]
    rw [ih (fun x hx => h x (List.mem_cons_of_mem l hx))]
    rfl

/-- Pieces produced by `splitlines` on carriage-return-free input contain no
line-boundary characters. -/
theorem splitlinesAux_mem_noLB :
    ∀ (cs : List Char), (∀ c ∈ cs, ¬ c = '\r') →
    ∀ (acc : List Char), (∀ c ∈ acc, isLineBreak c = false) →
    ∀ l ∈ splitlinesAux acc cs, ∀ c ∈ l, isLineBreak c = false := by
  intro cs
  induction cs with
  | nil =>
    intro _ acc hacc l hl c hc
    unfold splitlinesAux at hl
    by_cases he : acc = ([] : List Char)
    · simp [he] at hl
    · rw [if_neg he] at hl
      simp at hl
      subst hl
      exact hacc c (List.mem_reverse.mp hc)
  | cons x xs ih =>
    intro hcr acc hacc l hl c hc
    have hx : ¬ x = '\r' := hcr x (List.mem_cons_self x xs)
    rw [splitlinesAux_cons_not_cr _ _ _ hx] at hl
    by_cases hb : isLineBreak x
    · rw [if_pos hb] at hl
      rcases List.mem_cons.mp hl with h1 | h2
      · subst h1; exact hacc c (List.mem_reverse.mp hc)
      · exact ih (fun y hy => hcr y (List.mem_cons_of_mem x hy)) [] (by simp) l h2 c hc
    · rw [if_neg hb] at hl
      refine ih (fun y hy => hcr y (List.mem_cons_of_mem x hy)) (x :: acc) ?_ l hl c hc
      intro y hy
      rcases List.mem_cons.mp hy with h1 | h2
      · subst h1; exact Bool.eq_false_iff.mpr hb
      · exact hacc y h2

/-- Unfolding equation of `translateNl` on a cons whose head is not
`'\r'`. -/
theorem translateNl_cons_not_cr (c : Char) (rest : List Char) (h : ¬ c = '\r') :
    translateNl (c :: rest) = c :: translateNl rest := by
  conv_lhs => rw [translateNl.eq_def]
  dsimp only
  rw [if_neg h]

/-- Universal-newline translation is the identity on carriage-return-free
content. -/
theorem translateNl_id_of_no_cr :
    ∀ (cs : List Char), (∀ c ∈ cs, ¬ c = '\r') → translateNl cs = cs := by
  intro cs
  induction cs with
  | nil => intro _; rfl
  | cons c rest ih =>
    intro h
    rw [translateNl_cons_not_cr c rest (h c (List.mem_cons_self c rest)),
      ih (fun x hx => h x (List.mem_cons_of_mem c hx))]

/-- `readline` on `a ++ "\n" ++ b` with newline-free `a` returns the first
line `a ++ "\n"` and remainder `b`. -/
theorem readlineSplitL_append :
    ∀ (a : List Char), (∀ c ∈ a, ¬ c = '\n') → ∀ (b : List Char),
      readlineSplitL (a ++ '\n' :: b) = (a ++ ['\n'], b) := by
  intro a
  induction a with
  | nil =>
    intro _ b
    rw [List.nil_append]
    unfold readlineSplitL
    rw [if_pos rfl]
    rfl
  | cons c a' ih =>
    intro h b
    rw [List.cons_append]
    unfold readlineSplitL
    rw [if_neg (h c (List.mem_cons_self c a'))]
    rw [ih (fun x hx => h x (List.mem_cons_of_mem c hx)) b]
    simp

/-- Characters of the post-`readline` remainder come from the input. -/
theorem readlineSplitL_snd_subset :
    ∀ (cs : List Char), ∀ c ∈ (readlineSplitL cs).2, c ∈ cs := by
  intro cs
  induction cs with
  | nil => intro c hc; exact absurd hc (by simp [readlineSplitL])
  | cons x xs ih =>
    intro c hc
    unfold readlineSplitL at hc
    by_cases hx : x = '\n'
    · rw [if_pos hx] at hc
      exact List.mem_cons_of_mem x hc
    · rw [if_neg hx] at hc
      exact List.mem_cons_of_mem x (ih c hc)

/-- Unfolding equation of `translateNl` on `'\\r' :: b :: bs` when `b` is
not `'\\n'`. -/
theorem translateNl_cr_cons (b : Char) (bs : List Char) (h : ¬ b = '\n') :
    translateNl ('\r' :: b :: bs) = '\n' :: translateNl (b :: bs) := by
  conv_lhs => rw [translateNl.eq_def]
  dsimp only
  rw [if_pos rfl, if_neg h]

/-- Universal-newline translation never outputs a carriage return. -/
theorem translateNl_no_cr : ∀ (cs : List Char), ∀ c ∈ translateNl cs, ¬ c = '\r' := by
  intro cs
  induction cs using translateNl.induct with
  | case1 =>
    intro c hc
    rw [show translateNl [] = ([] : List Char) from rfl] at hc
    simp at hc
  | case2 ih =>
    intro c hc
    rw [show translateNl ['\r'] = ['\n'] from rfl] at hc
    rcases List.mem_singleton.mp hc with rfl
    decide
  | case3 bs ih =>
    intro c hc
    rw [show translateNl ('\r' :: '\n' :: bs) = '\n' :: translateNl bs from rfl] at hc
    rcases List.mem_cons.mp hc with rfl | h2
    · decide
    · exact ih c h2
  | case4 b bs hb ih =>
    intro c hc
    rw [translateNl_cr_cons b bs hb] at hc
    rcases List.mem_cons.mp hc with rfl | h2
    · decide
    · exact ih c h2
  | case5 b bs hb ih =>
    intro c hc
    rw [translateNl_cons_not_cr b bs hb] at hc
    rcases List.mem_cons.mp hc with rfl | h2
    · exact hb
    · exact ih c h2

/-- Character content of `joinLines`. -/
theorem joinLines_data (ls : List String) :
    (joinLines ls).data = ((ls.map String.data).map (· ++ ['\n'])).flatten := by
  induction ls with
  | nil => rfl
  | cons l ls ih =>
    show (l ++ "\n" ++ joinLines ls).data = _
    rw [List.map_cons, List.map_cons, List.flatten_cons]
    rw [show (l ++ "\n" ++ joinLines ls).data = l.data ++ ['\n'] ++ (joinLines ls).data from rfl]
    rw [ih]

/-- Characters of `joinLines ls` come from a member of `ls` or are the
inserted newlines. -/
theorem joinLines_mem (ls : List String) :
    ∀ c ∈ (joinLines ls).data, (∃ l ∈ ls, c ∈ l.data) ∨ c = '\n' := by
  induction ls with
  | nil => intro c hc; simp [joinLines] at hc
  | cons l ls ih =>
    intro c hc
    rw [show (joinLines (l :: ls)).data = l.data ++ ['\n'] ++ (joinLines ls).data from rfl] at hc
    rcases List.mem_append.mp hc with h1 | h2
    · rcases List.mem_append.mp h1 with h3 | h4
      · exact Or.inl ⟨l, List.mem_cons_self l ls, h3⟩
      · exact Or.inr (List.mem_singleton.mp h4)
    · rcases ih c h2 with ⟨l', hl', hc'⟩ | h3
      · exact Or.inl ⟨l', List.mem_cons_of_mem l hl', hc'⟩
      · exact Or.inr h3

/-- `rstrip("\\n")` is the identity on newline-free strings. -/
theorem rstripNl_id_of_no_nl (s : String) (h : ∀ c ∈ s.data, ¬ c = '\n') :
    rstripNl s = s := by
  unfold rstripNl rstripNlL
  cases hr : s.data.reverse with
  | nil =>
    have hd : s.data = [] := by
      have h2 := congrArg List.reverse hr
      simpa using h2
    conv_rhs => rw [show s = ⟨s.data⟩ from rfl]
    rw [hd]
    rfl
  | cons c rest =>
    have hcm : c ∈ s.data := by
      have h2 : c ∈ s.data.reverse := by rw [hr]; exact List.mem_cons_self c rest
      exact List.mem_reverse.mp h2
    have hcn : ¬ (c == '\n') = true := by
      intro hb
      exact h c hcm (by simpa using hb)
    have hs : (c :: rest).reverse = s.data := by rw [← hr, List.reverse_reverse]
    rw [show List.dropWhile (fun x => x == '\n') (c :: rest) = c :: rest from
      List.dropWhile_cons_of_neg hcn, hs]

/-- The canonical header contains no line-boundary character. -/
theorem CSV_HEADER_noLB : ∀ c ∈ CSV_HEADER.data, isLineBreak c = false := by decide

/-- The canonical header contains no newline. -/
theorem CSV_HEADER_no_nl : ∀ c ∈ CSV_HEADER.data, ¬ c = '\n' := by decide

/-- The canonical header contains no carriage return. -/
theorem CSV_HEADER_no_cr : ∀ c ∈ CSV_HEADER.data, ¬ c = '\r' := by decide

/-- `ensure_csv_header` is a no-op with no events when the stripped first
line already equals the canonical header. -/
theorem ensure_noop (path now raw : String) (h : pyStrip (readFirst raw) = CSV_HEADER) :
    ensure_csv_header path now (some raw) = (some raw, []) := by
  simp [ensure_csv_header, h]

/-- The repair branch of `ensure_csv_header`. -/
theorem ensure_repair (path now raw : String) (h : ¬ pyStrip (readFirst raw) = CSV_HEADER) :
    ensure_csv_header path now (some raw) =
      (some (CSV_HEADER ++ "\n" ++
         joinLines (((pySplitlines (readRest raw)).filter keepDataLine).map rstripNl)),
       [⟨now, "INFO", "init", "CSV_HEADER_FIXED", [("csv_path", path)]⟩]) := by
  simp [ensure_csv_header, h]

/-- The post-readline remainder of a text-mode read contains no carriage
return. -/
theorem readRest_no_cr (raw : String) : ∀ c ∈ (readRest raw).data, ¬ c = '\r' := by
  intro c hc
  have h1 : c ∈ (pyRead raw).data := readlineSplitL_snd_subset _ c hc
  exact translateNl_no_cr raw.data c h1

/-- Lines `splitlines` extracts from the remainder contain no
line-boundary characters. -/
theorem readRest_pieces_noLB (raw : String) :
    ∀ l ∈ pySplitlines (readRest raw), ∀ c ∈ l.data, isLineBreak c = false := by
  intro l hl c hc
  unfold pySplitlines at hl
  rcases List.mem_map.mp hl with ⟨x, hx, hmk⟩
  subst hmk
  exact splitlinesAux_mem_noLB _ (readRest_no_cr raw) [] (by simp) x hx c hc

/-- `rstrip("\\n")` is the identity on each kept line of the repair loop. -/
theorem kept_map_rstrip (raw : String) :
    ((pySplitlines (readRest raw)).filter keepDataLine).map rstripNl =
      (pySplitlines (readRest raw)).filter keepDataLine := by
  have h1 : ∀ l ∈ (pySplitlines (readRest raw)).filter keepDataLine,
      rstripNl l = l := by
    intro l hl
    apply rstripNl_id_of_no_nl
    intro c hc he
    have h2 := readRest_pieces_noLB raw l (List.mem_of_mem_filter hl) c hc
    subst he
    simp [isLineBreak] at h2
  calc ((pySplitlines (readRest raw)).filter keepDataLine).map rstripNl
      = ((pySplitlines (readRest raw)).filter keepDataLine).map id :=
        List.map_congr_left h1
    _ = _ := List.map_id _

/-- Character content of the rewritten file. -/
theorem body_data (ls : List String) :
    (CSV_HEADER ++ "\n" ++ joinLines ls).data
      = CSV_HEADER.data ++ '\n' :: (joinLines ls).data := by
  rw [show (CSV_HEADER ++ "\n" ++ joinLines ls).data
    = CSV_HEADER.data ++ ['\n'] ++ (joinLines ls).data from rfl]
  simp

/-- `splitlines` of `header + "\\n" + joined lines` recovers the header
followed by the lines, when the lines are boundary-free. -/
theorem splitlines_header_body (ls : List String)
    (h : ∀ l ∈ ls, ∀ c ∈ l.data, isLineBreak c = false) :
    pySplitlines (CSV_HEADER ++ "\n" ++ joinLines ls) = CSV_HEADER :: ls := by
  unfold pySplitlines
  rw [body_data, splitlinesAux_append_nl CSV_HEADER.data CSV_HEADER_noLB [] _]
  rw [joinLines_data]
  rw [splitlinesAux_flatten (ls.map String.data)
    (by
      intro l hl c hc
      rcases List.mem_map.mp hl with ⟨x, hx, hmk⟩
      subst hmk
      exact h x hx c hc)]
  rw [List.map_cons, List.map_map]
  rw [show (String.mk ∘ String.data) = id from funext (fun s => rfl), List.map_id]
  rfl

/-- The stripped first `readline` of `header + "\\n" + joined lines` is the
canonical header. -/
theorem first_header_body (ls : List String)
    (h : ∀ l ∈ ls, ∀ c ∈ l.data, isLineBreak c = false) :
    pyStrip (readFirst (CSV_HEADER ++ "\n" ++ joinLines ls)) = CSV_HEADER := by
  have hnocr : ∀ c ∈ (CSV_HEADER ++ "\n" ++ joinLines ls).data, ¬ c = '\r' := by
    rw [body_data]
    intro c hc
    rcases List.mem_append.mp hc with h1 | h2
    · exact CSV_HEADER_no_cr c h1
    · rcases List.mem_cons.mp h2 with rfl | h3
      · decide
      · rcases joinLines_mem _ c h3 with ⟨l, hl, hcl⟩ | rfl
        · intro he
          have h4 := h l hl c hcl
          subst he
          simp [isLineBreak] at h4
        · decide
  unfold readFirst
  rw [show (pyRead (CSV_HEADER ++ "\n" ++ joinLines ls)).data
    = translateNl (CSV_HEADER ++ "\n" ++ joinLines ls).data from rfl]
  rw [translateNl_id_of_no_cr _ hnocr, body_data,
    readlineSplitL_append CSV_HEADER.data CSV_HEADER_no_nl _]
  show pyStrip (⟨CSV_HEADER.data ++ ['\n']⟩ : String) = CSV_HEADER
  rw [show (⟨CSV_HEADER.data ++ ['\n']⟩ : String) = CSV_HEADER ++ "\n" from rfl]
  decide

/-- The lines of the repaired file are the canonical header followed by
exactly the kept lines of the old remainder, in order. -/
theorem repair_content_splitlines (raw : String) :
    pySplitlines (CSV_HEADER ++ "\n" ++
        joinLines (((pySplitlines (readRest raw)).filter keepDataLine).map rstripNl)) =
      CSV_HEADER :: (pySplitlines (readRest raw)).filter keepDataLine := by
  rw [kept_map_rstrip]
  exact splitlines_header_body _ (fun l hl =>
    readRest_pieces_noLB raw l (List.mem_of_mem_filter hl))

/-- The repaired file starts with the canonical header. -/
theorem repair_first_header (raw : String) :
    pyStrip (readFirst (CSV_HEADER ++ "\n" ++
        joinLines (((pySplitlines (readRest raw)).filter keepDataLine).map rstripNl))) =
      CSV_HEADER := by
  rw [kept_map_rstrip]
  exact first_header_body _ (fun l hl =>
    readRest_pieces_noLB raw l (List.mem_of_mem_filter hl))

/-- `ensure_csv_header` always leaves the file existing. -/
theorem ensure_fst_some (path now : String) (csv : Option String) :
    ∃ c, (ensure_csv_header path now csv).1 = some c := by
  cases csv with
  | none => exact ⟨CSV_HEADER ++ "\n", rfl⟩
  | some raw =>
    by_cases h : pyStrip (readFirst raw) = CSV_HEADER
    · rw [ensure_noop path now raw h]
      exact ⟨raw, rfl⟩
    · rw [ensure_repair path now raw h]
      exact ⟨_, rfl⟩

/-- Whatever `ensure_csv_header` leaves on disk has the canonical header as
its stripped first line. -/
theorem ensure_result_header (path now : String) (csv : Option String) (c : String)
    (h : (ensure_csv_header path now csv).1 = some c) :
    pyStrip (readFirst c) = CSV_HEADER := by
  cases csv with
  | none =>
    simp [ensure_csv_header] at h
    subst h
    decide
  | some raw =>
    by_cases hh : pyStrip (readFirst raw) = CSV_HEADER
    · rw [ensure_noop path now raw hh] at h
      simp at h
      subst h
      exact hh
    · rw [ensure_repair path now raw hh] at h
      simp at h
      subst h
      exact repair_first_header raw

/-- Every diagnostic event `ensure_csv_header` emits has reason
`CSV_HEADER_FIXED`. -/
theorem ensure_events_reason (path now : String) (csv : Option String) :
    ∀ ev ∈ (ensure_csv_header path now csv).2, ev.reason = "CSV_HEADER_FIXED" := by
  cases csv with
  | none => intro ev hev; simp [ensure_csv_header] at hev
  | some raw =>
    by_cases h : pyStrip (readFirst raw) = CSV_HEADER
    · rw [ensure_noop path now raw h]
      intro ev hev
      simp at hev
    · rw [ensure_repair path now raw h]
      intro ev hev
      rcases List.mem_singleton.mp hev with rfl
      rfl

/-! ### Claim theorems -/

/-- C2: for every environment, configuration, timestamp and starting CSV
file, `main` of both script variants returns exit code 0, whatever the
internal outcome (precondition failure at any stage, measurement failure,
empty output, validation failure, or success). -/
theorem main_exit_always_zero (env : String → LaunchOutcome) (cfg : Config)
    (ts : String) (csv0 : Option String) :
    (mainStats env cfg ts csv0).exitCode = 0 ∧ (mainLog env cfg ts csv0).exitCode = 0 := by
  constructor
  · unfold mainStats
    dsimp only
    repeat' split
    all_goals rfl
  · unfold mainLog
    dsimp only
    repeat' split
    all_goals rfl

/-- C4: `classify_speedtest_error` applies its rules in the documented
order and returns the reason code of the first matching rule; a string
matching two patterns resolves to the first. -/
theorem classify_first_match (s : String) :
    (pyContains s "NotFoundException" = true →
       classify_speedtest_error s = "SPEEDTEST_IFACE_NOT_FOUND") ∧
    (pyContains s "NotFoundException" = false →
     pyContains s "Network unreachable" = true →
       classify_speedtest_error s = "SPEEDTEST_NET_UNREACH") ∧
    (pyContains s "NotFoundException" = false →
     pyContains s "Network unreachable" = false →
     pyContains (pyLower s) "timeout" = true →
       classify_speedtest_error s = "SPEEDTEST_TIMEOUT") ∧
    (pyContains s "NotFoundException" = false →
     pyContains s "Network unreachable" = false →
     pyContains (pyLower s) "timeout" = false →
     pyContains (pyLower s) "permission denied" = true →
       classify_speedtest_error s = "SPEEDTEST_PERMISSION") ∧
    (pyContains s "NotFoundException" = false →
     pyContains s "Network unreachable" = false →
     pyContains (pyLower s) "timeout" = false →
     pyContains (pyLower s) "permission denied" = false →
     s = "" →
       classify_speedtest_error s = "SPEEDTEST_UNKNOWN") ∧
    (pyContains s "NotFoundException" = false →
     pyContains s "Network unreachable" = false →
     pyContains (pyLower s) "timeout" = false →
     pyContains (pyLower s) "permission denied" = false →
     s ≠ "" →
       classify_speedtest_error s = "SPEEDTEST_ERROR") := by
  refine ⟨?_, ?_, ?_, ?_, ?_, ?_⟩ <;> intros <;> simp_all [classify_speedtest_error]

/-- Witness for C4: a stderr string containing both a timeout marker and a
permission-denied marker resolves to the earlier rule, `SPEEDTEST_TIMEOUT`. -/
theorem classify_first_match_witness :
    pyContains "Read Timeout: Permission denied" "NotFoundException" = false ∧
    pyContains (pyLower "Read Timeout: Permission denied") "timeout" = true ∧
    pyContains (pyLower "Read Timeout: Permission denied") "permission denied" = true ∧
    classify_speedtest_error "Read Timeout: Permission denied" = "SPEEDTEST_TIMEOUT" :=
  ⟨by decide, by decide, by decide,
   (classify_first_match "Read Timeout: Permission denied").2.2.1
     (by decide) (by decide) (by decide)⟩

/-- C5: `validate_csv_line` accepts a line exactly when splitting it on
commas yields 22 fields, whatever the fields contain (trimming each field
never changes the count); any other count is rejected. -/
theorem validate_csv_line_iff_22_fields (line : String) :
    validate_csv_line line = true ↔ (pySplitComma line).length = 22 := by
  have h22 : CSV_FIELD_COUNT = 22 := by decide
  simp [validate_csv_line, h22]

/-- C7: `run_cmd` is a total function into result triples (it cannot raise:
the embedding is a function); when the launch itself fails, it returns the
synthetic triple of exit code 1 (non-zero), empty stdout, and the error
description in place of stderr. -/
theorem runCmd_launch_failure_total (env : String → LaunchOutcome) (cmd desc : String)
    (h : env cmd = .failure desc) :
    runCmd env cmd = (1, "", desc) ∧ (runCmd env cmd).1 ≠ 0 := by
  simp [runCmd, h]

/-- Witness for C7: a missing binary (FileNotFoundError on launch) yields
the synthetic failure triple. -/
theorem runCmd_launch_failure_total_witness :
    envLaunchFailW "/usr/local/bin/speedtest-telemetry --format=csv" =
      .failure "FileNotFoundError: [Errno 2] No such file or directory: 'ip'" ∧
    runCmd envLaunchFailW "/usr/local/bin/speedtest-telemetry --format=csv" =
      (1, "", "FileNotFoundError: [Errno 2] No such file or directory: 'ip'") ∧
    (runCmd envLaunchFailW "/usr/local/bin/speedtest-telemetry --format=csv").1 ≠ 0 :=
  ⟨rfl,
   (runCmd_launch_failure_total envLaunchFailW
     "/usr/local/bin/speedtest-telemetry --format=csv" _ rfl).1,
   (runCmd_launch_failure_total envLaunchFailW
     "/usr/local/bin/speedtest-telemetry --format=csv" _ rfl).2⟩

/-- C8: on an existing file whose (stripped) first line already equals the
canonical header, `ensure_csv_header` leaves the contents unchanged and
emits no diagnostic event; and a second successive call after any first
call is always such a no-op. -/
theorem ensure_header_idempotent (path now raw : String) (csv : Option String) :
    (pyStrip (readFirst raw) = CSV_HEADER →
       ensure_csv_header path now (some raw) = (some raw, [])) ∧
    ensure_csv_header path now (ensure_csv_header path now csv).1 =
      ((ensure_csv_header path now csv).1, []) := by
  refine ⟨ensure_noop path now raw, ?_⟩
  obtain ⟨c, hc⟩ := ensure_fst_some path now csv
  rw [hc]
  exact ensure_noop path now c (ensure_result_header path now csv c hc)

/-- Witness for C8 at a concrete well-formed file. -/
theorem ensure_header_idempotent_witness :
    pyStrip (readFirst (CSV_HEADER ++ "\nrow1,data\n")) = CSV_HEADER ∧
    ensure_csv_header "p" "t" (some (CSV_HEADER ++ "\nrow1,data\n")) =
      (some (CSV_HEADER ++ "\nrow1,data\n"), []) :=
  ⟨by decide,
   (ensure_header_idempotent "p" "t" (CSV_HEADER ++ "\nrow1,data\n") none).1 (by decide)⟩

/-- C1 counterexample: on the file `"a,b\\nc,d"` the original first line
`"a,b"` is a prior non-blank line that does not start with `timestamp`,
yet after repair it is gone — `ensure_csv_header` unconditionally discards
the original first line, so the claim's preservation statement is false. -/
theorem ensure_header_repair_drops_first_line_cex :
    pyStrip (readFirst "a,b\nc,d") ≠ CSV_HEADER ∧
    pyStrip "a,b" ≠ "" ∧
    pyStartsWith (pyStrip "a,b") "timestamp" = false ∧
    "a,b" ∈ pySplitlines (pyRead "a,b\nc,d") ∧
    (ensure_csv_header "p" "t" (some "a,b\nc,d")).1 = some (CSV_HEADER ++ "\nc,d\n") ∧
    "a,b" ∉ pySplitlines (CSV_HEADER ++ "\nc,d\n") := by
  refine ⟨by decide, by decide, by decide, by decide, by decide, by decide⟩

/-- C1 (amended): when the stripped first line differs from the canonical
header, `ensure_csv_header` rewrites the file and emits exactly one INFO
`CSV_HEADER_FIXED` event; the new file's lines are the canonical header
followed, in original order, by every non-blank line of the content after
the original first line whose stripped form does not start with
`timestamp` — the original first line itself is always discarded — and the
new file's stripped first line is the canonical header. -/
theorem ensure_header_repair_amended (path now raw : String)
    (h : ¬ pyStrip (readFirst raw) = CSV_HEADER) :
    ensure_csv_header path now (some raw) =
      (some (CSV_HEADER ++ "\n" ++
         joinLines (((pySplitlines (readRest raw)).filter keepDataLine).map rstripNl)),
       [⟨now, "INFO", "init", "CSV_HEADER_FIXED", [("csv_path", path)]⟩]) ∧
    pySplitlines (CSV_HEADER ++ "\n" ++
        joinLines (((pySplitlines (readRest raw)).filter keepDataLine).map rstripNl)) =
      CSV_HEADER :: (pySplitlines (readRest raw)).filter keepDataLine ∧
    pyStrip (readFirst (CSV_HEADER ++ "\n" ++
        joinLines (((pySplitlines (readRest raw)).filter keepDataLine).map rstripNl))) =
      CSV_HEADER :=
  ⟨ensure_repair path now raw h, repair_content_splitlines raw, repair_first_header raw⟩

/-- Witness for the amended C1 at a concrete corrupted file. -/
theorem ensure_header_repair_amended_witness :
    (¬ pyStrip (readFirst "old_header\nrow1,x\n\ntimestamp,dup\nrow2,y") = CSV_HEADER) ∧
    (ensure_csv_header "p" "t" (some "old_header\nrow1,x\n\ntimestamp,dup\nrow2,y") =
      (some (CSV_HEADER ++ "\n" ++
         joinLines (((pySplitlines (readRest "old_header\nrow1,x\n\ntimestamp,dup\nrow2,y")).filter
           keepDataLine).map rstripNl)),
       [⟨"t", "INFO", "init", "CSV_HEADER_FIXED", [("csv_path", "p")]⟩]) ∧
    pySplitlines (CSV_HEADER ++ "\n" ++
        joinLines (((pySplitlines (readRest "old_header\nrow1,x\n\ntimestamp,dup\nrow2,y")).filter
          keepDataLine).map rstripNl)) =
      CSV_HEADER :: (pySplitlines (readRest "old_header\nrow1,x\n\ntimestamp,dup\nrow2,y")).filter
        keepDataLine ∧
    pyStrip (readFirst (CSV_HEADER ++ "\n" ++
        joinLines (((pySplitlines (readRest "old_header\nrow1,x\n\ntimestamp,dup\nrow2,y")).filter
          keepDataLine).map rstripNl))) = CSV_HEADER) :=
  ⟨by decide,
   ensure_header_repair_amended "p" "t" "old_header\nrow1,x\n\ntimestamp,dup\nrow2,y" (by decide)⟩


/-- C3 counterexample: with no gateway override configured, the
default-route query (the claim's third stage) is invoked before the
interface check, so when the interface check fails the call log already
contains the route query — the claimed stage order and short-circuit over
all four stages is false. -/
theorem precheck_order_cex :
    (check_iface envIfaceFailW cfgW.iface).1 = false ∧
    (mainStats envIfaceFailW cfgW "T" (some (CSV_HEADER ++ "\n"))).trace.map Prod.fst =
      [Site.routeQuery, Site.linkQuery] ∧
    Site.routeQuery ∈ (mainStats envIfaceFailW cfgW "T" (some (CSV_HEADER ++ "\n"))).trace.map Prod.fst ∧
    (mainStats envIfaceFailW cfgW "T" (some (CSV_HEADER ++ "\n"))).events =
      [⟨"T", "ERROR", "precheck", "IFACE_NOT_FOUND",
        [("iface", "wlp2s0"), ("stderr", "Device \"wlp2s0\" does not exist.")]⟩] := by
  refine ⟨by decide, by decide, by decide, by decide⟩

/-- C3 (amended): the default-route query is issued up front (only when no
gateway override is configured), before the interface check; the decision
stages then run in the order interface check, address check, default-route
presence check, gateway reachability probe, each terminal on failure.  For
each failing stage the call log contains exactly the optional up-front
route query plus the link query, the address query and the ping probe up to
and including that stage's own command — in particular no later stage's
command (and never the measurement command) is invoked — and the run emits
that stage's single precheck ERROR event after any ensure events. -/
theorem precheck_stages_terminal (env : String → LaunchOutcome) (cfg : Config)
    (ts : String) (csv0 : Option String) :
    ((check_iface env cfg.iface).1 = false →
      (mainStats env cfg ts csv0).trace =
        (if cfg.gatewayIp = "" then [(Site.routeQuery, "ip route show default")] else []) ++
          [(Site.linkQuery, "ip link show " ++ cfg.iface)] ∧
      (∀ p ∈ (mainStats env cfg ts csv0).trace,
         p.1 ≠ Site.addrQuery ∧ p.1 ≠ Site.gwPing ∧ p.1 ≠ Site.speedtest) ∧
      (mainStats env cfg ts csv0).events =
        (ensure_csv_header cfg.csvPath ts csv0).2 ++
          [⟨ts, "ERROR", "precheck", (check_iface env cfg.iface).2.1,
            ("iface", cfg.iface) :: (check_iface env cfg.iface).2.2⟩]) ∧
    ((check_iface env cfg.iface).1 = true →
     (check_ip_address env cfg.iface).1 = false →
      (mainStats env cfg ts csv0).trace =
        (if cfg.gatewayIp = "" then [(Site.routeQuery, "ip route show default")] else []) ++
          [(Site.linkQuery, "ip link show " ++ cfg.iface),
           (Site.addrQuery, "ip -4 addr show dev " ++ cfg.iface)] ∧
      (∀ p ∈ (mainStats env cfg ts csv0).trace,
         p.1 ≠ Site.gwPing ∧ p.1 ≠ Site.speedtest) ∧
      (mainStats env cfg ts csv0).events =
        (ensure_csv_header cfg.csvPath ts csv0).2 ++
          [⟨ts, "ERROR", "precheck", (check_ip_address env cfg.iface).2.1,
            ("iface", cfg.iface) :: (check_ip_address env cfg.iface).2.2⟩]) ∧
    ((check_iface env cfg.iface).1 = true →
     (check_ip_address env cfg.iface).1 = true →
     truthy (gwOf env cfg) = false →
      (mainStats env cfg ts csv0).trace =
        (if cfg.gatewayIp = "" then [(Site.routeQuery, "ip route show default")] else []) ++
          [(Site.linkQuery, "ip link show " ++ cfg.iface),
           (Site.addrQuery, "ip -4 addr show dev " ++ cfg.iface)] ∧
      (∀ p ∈ (mainStats env cfg ts csv0).trace,
         p.1 ≠ Site.gwPing ∧ p.1 ≠ Site.speedtest) ∧
      (mainStats env cfg ts csv0).events =
        (ensure_csv_header cfg.csvPath ts csv0).2 ++
          [⟨ts, "ERROR", "precheck", "NO_DEFAULT_ROUTE", [("iface", cfg.iface)]⟩]) ∧
    ((check_iface env cfg.iface).1 = true →
     (check_ip_address env cfg.iface).1 = true →
     truthy (gwOf env cfg) = true →
     (check_gateway env ((gwOf env cfg).getD "")).1 = false →
      (mainStats env cfg ts csv0).trace =
        (if cfg.gatewayIp = "" then [(Site.routeQuery, "ip route show default")] else []) ++
          [(Site.linkQuery, "ip link show " ++ cfg.iface),
           (Site.addrQuery, "ip -4 addr show dev " ++ cfg.iface),
           (Site.gwPing, "ping -c 1 -W 2 " ++ (gwOf env cfg).getD "")] ∧
      (∀ p ∈ (mainStats env cfg ts csv0).trace, p.1 ≠ Site.speedtest) ∧
      (mainStats env cfg ts csv0).events =
        (ensure_csv_header cfg.csvPath ts csv0).2 ++
          [⟨ts, "ERROR", "precheck", (check_gateway env ((gwOf env cfg).getD "")).2.1,
            ("iface", cfg.iface) :: ("gateway_ip", (gwOf env cfg).getD "") ::
              (check_gateway env ((gwOf env cfg).getD "")).2.2⟩]) := by
  refine ⟨?_, ?_, ?_, ?_⟩
  · intro h
    have hm : mainStats env cfg ts csv0 = ⟨0, (ensure_csv_header cfg.csvPath ts csv0).1,
        (ensure_csv_header cfg.csvPath ts csv0).2 ++
          [⟨ts, "ERROR", "precheck", (check_iface env cfg.iface).2.1,
            ("iface", cfg.iface) :: (check_iface env cfg.iface).2.2⟩],
        (if cfg.gatewayIp = "" then [(Site.routeQuery, "ip route show default")] else []) ++
          [(Site.linkQuery, "ip link show " ++ cfg.iface)]⟩ := by
      unfold mainStats
      dsimp only
      simp [h]
    refine ⟨by rw [hm], ?_, by rw [hm]⟩
    rw [hm]
    intro p hp
    dsimp at hp
    rcases List.mem_append.mp hp with h1 | h2
    · by_cases hg : cfg.gatewayIp = ""
      · rw [if_pos hg] at h1
        rcases List.mem_singleton.mp h1 with rfl
        exact ⟨by decide, by decide, by decide⟩
      · rw [if_neg hg] at h1
        simp at h1
    · rcases List.mem_singleton.mp h2 with rfl
      exact ⟨by simp, by simp, by simp⟩
  · intro h1 h2
    have hm : mainStats env cfg ts csv0 = ⟨0, (ensure_csv_header cfg.csvPath ts csv0).1,
        (ensure_csv_header cfg.csvPath ts csv0).2 ++
          [⟨ts, "ERROR", "precheck", (check_ip_address env cfg.iface).2.1,
            ("iface", cfg.iface) :: (check_ip_address env cfg.iface).2.2⟩],
        (if cfg.gatewayIp = "" then [(Site.routeQuery, "ip route show default")] else []) ++
          [(Site.linkQuery, "ip link show " ++ cfg.iface),
           (Site.addrQuery, "ip -4 addr show dev " ++ cfg.iface)]⟩ := by
      unfold mainStats
      dsimp only
      simp [h1, h2]
    refine ⟨by rw [hm], ?_, by rw [hm]⟩
    rw [hm]
    intro p hp
    dsimp at hp
    rcases List.mem_append.mp hp with ha | hb
    · by_cases hg : cfg.gatewayIp = ""
      · rw [if_pos hg] at ha
        rcases List.mem_singleton.mp ha with rfl
        exact ⟨by decide, by decide⟩
      · rw [if_neg hg] at ha
        simp at ha
    · rcases List.mem_cons.mp hb with rfl | hc
      · exact ⟨by simp, by simp⟩
      · rcases List.mem_singleton.mp hc with rfl
        exact ⟨by simp, by simp⟩
  · intro h1 h2 hg0
    have hm : mainStats env cfg ts csv0 = ⟨0, (ensure_csv_header cfg.csvPath ts csv0).1,
        (ensure_csv_header cfg.csvPath ts csv0).2 ++
          [⟨ts, "ERROR", "precheck", "NO_DEFAULT_ROUTE", [("iface", cfg.iface)]⟩],
        (if cfg.gatewayIp = "" then [(Site.routeQuery, "ip route show default")] else []) ++
          [(Site.linkQuery, "ip link show " ++ cfg.iface),
           (Site.addrQuery, "ip -4 addr show dev " ++ cfg.iface)]⟩ := by
      unfold mainStats
      dsimp only
      simp [h1, h2, hg0]
    refine ⟨by rw [hm], ?_, by rw [hm]⟩
    rw [hm]
    intro p hp
    dsimp at hp
    rcases List.mem_append.mp hp with ha | hb
    · by_cases hg : cfg.gatewayIp = ""
      · rw [if_pos hg] at ha
        rcases List.mem_singleton.mp ha with rfl
        exact ⟨by decide, by decide⟩
      · rw [if_neg hg] at ha
        simp at ha
    · rcases List.mem_cons.mp hb with rfl | hc
      · exact ⟨by simp, by simp⟩
      · rcases List.mem_singleton.mp hc with rfl
        exact ⟨by simp, by simp⟩
  · intro h1 h2 hg1 h4
    have hm : mainStats env cfg ts csv0 = ⟨0, (ensure_csv_header cfg.csvPath ts csv0).1,
        (ensure_csv_header cfg.csvPath ts csv0).2 ++
          [⟨ts, "ERROR", "precheck", (check_gateway env ((gwOf env cfg).getD "")).2.1,
            ("iface", cfg.iface) :: ("gateway_ip", (gwOf env cfg).getD "") ::
              (check_gateway env ((gwOf env cfg).getD "")).2.2⟩],
        (if cfg.gatewayIp = "" then [(Site.routeQuery, "ip route show default")] else []) ++
          [(Site.linkQuery, "ip link show " ++ cfg.iface),
           (Site.addrQuery, "ip -4 addr show dev " ++ cfg.iface),
           (Site.gwPing, "ping -c 1 -W 2 " ++ (gwOf env cfg).getD "")]⟩ := by
      unfold mainStats
      dsimp only
      simp [h1, h2, hg1, h4]
    refine ⟨by rw [hm], ?_, by rw [hm]⟩
    rw [hm]
    intro p hp
    dsimp at hp
    rcases List.mem_append.mp hp with ha | hb
    · by_cases hg : cfg.gatewayIp = ""
      · rw [if_pos hg] at ha
        rcases List.mem_singleton.mp ha with rfl
        decide
      · rw [if_neg hg] at ha
        simp at ha
    · rcases List.mem_cons.mp hb with rfl | hc
      · simp
      · rcases List.mem_cons.mp hc with rfl | hd
        · simp
        · rcases List.mem_singleton.mp hd with rfl
          simp

/-- Witness for the amended C3: four concrete environments, one per failing
stage, each showing the call log stops at that stage. -/
theorem precheck_stages_terminal_witness :
    (check_iface envIfaceFailW cfgW.iface).1 = false ∧
    (mainStats envIfaceFailW cfgW "T" none).trace =
      (if cfgW.gatewayIp = "" then [(Site.routeQuery, "ip route show default")] else []) ++
        [(Site.linkQuery, "ip link show " ++ cfgW.iface)] ∧
    (check_iface envAddrFailW cfgW.iface).1 = true ∧
    (check_ip_address envAddrFailW cfgW.iface).1 = false ∧
    (mainStats envAddrFailW cfgW "T" none).trace =
      (if cfgW.gatewayIp = "" then [(Site.routeQuery, "ip route show default")] else []) ++
        [(Site.linkQuery, "ip link show " ++ cfgW.iface),
         (Site.addrQuery, "ip -4 addr show dev " ++ cfgW.iface)] ∧
    truthy (gwOf envNoRouteW cfgW) = false ∧
    (mainStats envNoRouteW cfgW "T" none).trace =
      (if cfgW.gatewayIp = "" then [(Site.routeQuery, "ip route show default")] else []) ++
        [(Site.linkQuery, "ip link show " ++ cfgW.iface),
         (Site.addrQuery, "ip -4 addr show dev " ++ cfgW.iface)] ∧
    truthy (gwOf envGwFailW cfgW) = true ∧
    (check_gateway envGwFailW ((gwOf envGwFailW cfgW).getD "")).1 = false ∧
    (mainStats envGwFailW cfgW "T" none).trace =
      (if cfgW.gatewayIp = "" then [(Site.routeQuery, "ip route show default")] else []) ++
        [(Site.linkQuery, "ip link show " ++ cfgW.iface),
         (Site.addrQuery, "ip -4 addr show dev " ++ cfgW.iface),
         (Site.gwPing, "ping -c 1 -W 2 " ++ (gwOf envGwFailW cfgW).getD "")] :=
  ⟨by decide,
   ((precheck_stages_terminal envIfaceFailW cfgW "T" none).1 (by decide)).1,
   by decide, by decide,
   ((precheck_stages_terminal envAddrFailW cfgW "T" none).2.1 (by decide) (by decide)).1,
   by decide,
   ((precheck_stages_terminal envNoRouteW cfgW "T" none).2.2.1
     (by decide) (by decide) (by decide)).1,
   by decide, by decide,
   ((precheck_stages_terminal envGwFailW cfgW "T" none).2.2.2
     (by decide) (by decide) (by decide) (by decide)).1⟩
/-- C6: when all four preconditions pass and the measurement command exits
0 with non-empty stdout of 22 comma-split fields, the stripped stdout line
is appended verbatim to the (post-ensure) CSV followed by a single newline
— the contents the row is appended to are unchanged — and exactly one INFO
diagnostic event with reason OK is emitted. -/
theorem success_appends_row (env : String → LaunchOutcome) (cfg : Config)
    (ts : String) (csv0 : Option String)
    (h1 : (check_iface env cfg.iface).1 = true)
    (h2 : (check_ip_address env cfg.iface).1 = true)
    (h3 : truthy (gwOf env cfg) = true)
    (h4 : (check_gateway env ((gwOf env cfg).getD "")).1 = true)
    (h5 : (runCmd env cfg.speedtestCmd).1 = 0)
    (h6 : ¬ (runCmd env cfg.speedtestCmd).2.1 = "")
    (h7 : validate_csv_line ((runCmd env cfg.speedtestCmd).2.1) = true) :
    (mainStats env cfg ts csv0).csv =
      some ((ensure_csv_header cfg.csvPath ts csv0).1.getD "" ++
        (runCmd env cfg.speedtestCmd).2.1 ++ "\n") ∧
    (mainStats env cfg ts csv0).events =
      (ensure_csv_header cfg.csvPath ts csv0).2 ++
        [⟨ts, "INFO", "speedtest", "OK",
          [("iface", cfg.iface), ("gateway_ip", (gwOf env cfg).getD "")]⟩] ∧
    (mainStats env cfg ts csv0).events.countP
        (fun ev => ev.level == "INFO" && ev.reason == "OK") = 1 := by
  have hm := mainStats_success env cfg ts csv0 h1 h2 h3 h4 h5 h6 h7
  refine ⟨?_, ?_, ?_⟩
  · rw [hm]
    show append_line (ensure_csv_header cfg.csvPath ts csv0).1
      ((runCmd env cfg.speedtestCmd).2.1) = _
    unfold append_line
    rw [runCmd_stdout_rstrip]
  · rw [hm]
  · rw [hm]
    show ((ensure_csv_header cfg.csvPath ts csv0).2 ++
        ([⟨ts, "INFO", "speedtest", "OK",
          [("iface", cfg.iface), ("gateway_ip", (gwOf env cfg).getD "")]⟩] :
            List DiagEvent)).countP
        (fun ev => ev.level == "INFO" && ev.reason == "OK") = 1
    rw [List.countP_append]
    have h0 : (ensure_csv_header cfg.csvPath ts csv0).2.countP
        (fun ev => ev.level == "INFO" && ev.reason == "OK") = 0 := by
      rw [List.countP_eq_zero]
      intro ev hev
      have hr := ensure_events_reason cfg.csvPath ts csv0 ev hev
      simp [hr]
    rw [h0]
    simp [List.countP_cons]

/-- Witness for C6 at the spec's end-to-end scenario 2 environment. -/
theorem success_appends_row_witness :
    (check_iface envW cfgW.iface).1 = true ∧
    (check_ip_address envW cfgW.iface).1 = true ∧
    truthy (gwOf envW cfgW) = true ∧
    (check_gateway envW ((gwOf envW cfgW).getD "")).1 = true ∧
    (runCmd envW cfgW.speedtestCmd).1 = 0 ∧
    (¬ (runCmd envW cfgW.speedtestCmd).2.1 = "") ∧
    validate_csv_line ((runCmd envW cfgW.speedtestCmd).2.1) = true ∧
    ((mainStats envW cfgW "T" (some (CSV_HEADER ++ "\n"))).csv =
      some ((ensure_csv_header cfgW.csvPath "T" (some (CSV_HEADER ++ "\n"))).1.getD "" ++
        (runCmd envW cfgW.speedtestCmd).2.1 ++ "\n") ∧
    (mainStats envW cfgW "T" (some (CSV_HEADER ++ "\n"))).events =
      (ensure_csv_header cfgW.csvPath "T" (some (CSV_HEADER ++ "\n"))).2 ++
        [⟨"T", "INFO", "speedtest", "OK",
          [("iface", cfgW.iface), ("gateway_ip", (gwOf envW cfgW).getD "")]⟩] ∧
    (mainStats envW cfgW "T" (some (CSV_HEADER ++ "\n"))).events.countP
        (fun ev => ev.level == "INFO" && ev.reason == "OK") = 1) :=
  ⟨by decide, by decide, by decide, by decide, by decide, by decide, by decide,
   success_appends_row envW cfgW "T" (some (CSV_HEADER ++ "\n"))
     (by decide) (by decide) (by decide) (by decide) (by decide) (by decide) (by decide)⟩

/-- C9: on the successful path both variants append the identical row (the
stripped stdout of the measurement command, then one newline) to their CSV
and their final diagnostic event is the identical INFO/`speedtest`/OK
event; their command call logs agree as well.  They differ only in that the
legacy variant starts from the raw file (no header ensure) and performs no
validation (hypothesis `h7` is not needed for `mainLog`). -/
theorem variants_agree_on_success (env : String → LaunchOutcome) (cfg : Config)
    (ts : String) (csv0 : Option String)
    (h1 : (check_iface env cfg.iface).1 = true)
    (h2 : (check_ip_address env cfg.iface).1 = true)
    (h3 : truthy (gwOf env cfg) = true)
    (h4 : (check_gateway env ((gwOf env cfg).getD "")).1 = true)
    (h5 : (runCmd env cfg.speedtestCmd).1 = 0)
    (h6 : ¬ (runCmd env cfg.speedtestCmd).2.1 = "")
    (h7 : validate_csv_line ((runCmd env cfg.speedtestCmd).2.1) = true) :
    (mainStats env cfg ts csv0).csv =
      some ((ensure_csv_header cfg.csvPath ts csv0).1.getD "" ++
        (runCmd env cfg.speedtestCmd).2.1 ++ "\n") ∧
    (mainLog env cfg ts csv0).csv =
      some (csv0.getD "" ++ (runCmd env cfg.speedtestCmd).2.1 ++ "\n") ∧
    (mainStats env cfg ts csv0).events.getLast? =
      some ⟨ts, "INFO", "speedtest", "OK",
        [("iface", cfg.iface), ("gateway_ip", (gwOf env cfg).getD "")]⟩ ∧
    (mainLog env cfg ts csv0).events =
      [⟨ts, "INFO", "speedtest", "OK",
        [("iface", cfg.iface), ("gateway_ip", (gwOf env cfg).getD "")]⟩] ∧
    (mainStats env cfg ts csv0).trace = (mainLog env cfg ts csv0).trace := by
  have hms := mainStats_success env cfg ts csv0 h1 h2 h3 h4 h5 h6 h7
  have hml := mainLog_success env cfg ts csv0 h1 h2 h3 h4 h5 h6
  refine ⟨?_, ?_, ?_, ?_, ?_⟩
  · rw [hms]
    show append_line (ensure_csv_header cfg.csvPath ts csv0).1
      ((runCmd env cfg.speedtestCmd).2.1) = _
    unfold append_line
    rw [runCmd_stdout_rstrip]
  · rw [hml]
    show append_line csv0 ((runCmd env cfg.speedtestCmd).2.1) = _
    unfold append_line
    rw [runCmd_stdout_rstrip]
  · rw [hms]
    exact List.getLast?_concat _
  · rw [hml]
  · rw [hms, hml]

/-- Witness for C9 at a concrete all-pass environment. -/
theorem variants_agree_on_success_witness :
    (check_iface envW cfgW.iface).1 = true ∧
    (runCmd envW cfgW.speedtestCmd).1 = 0 ∧
    validate_csv_line ((runCmd envW cfgW.speedtestCmd).2.1) = true ∧
    ((mainStats envW cfgW "T" (some (CSV_HEADER ++ "\n"))).csv =
      some ((ensure_csv_header cfgW.csvPath "T" (some (CSV_HEADER ++ "\n"))).1.getD "" ++
        (runCmd envW cfgW.speedtestCmd).2.1 ++ "\n") ∧
    (mainLog envW cfgW "T" (some (CSV_HEADER ++ "\n"))).csv =
      some ((some (CSV_HEADER ++ "\n")).getD "" ++ (runCmd envW cfgW.speedtestCmd).2.1 ++ "\n") ∧
    (mainStats envW cfgW "T" (some (CSV_HEADER ++ "\n"))).events.getLast? =
      some ⟨"T", "INFO", "speedtest", "OK",
        [("iface", cfgW.iface), ("gateway_ip", (gwOf envW cfgW).getD "")]⟩ ∧
    (mainLog envW cfgW "T" (some (CSV_HEADER ++ "\n"))).events =
      [⟨"T", "INFO", "speedtest", "OK",
        [("iface", cfgW.iface), ("gateway_ip", (gwOf envW cfgW).getD "")]⟩] ∧
    (mainStats envW cfgW "T" (some (CSV_HEADER ++ "\n"))).trace =
      (mainLog envW cfgW "T" (some (CSV_HEADER ++ "\n"))).trace) :=
  ⟨by decide, by decide, by decide,
   variants_agree_on_success envW cfgW "T" (some (CSV_HEADER ++ "\n"))
     (by decide) (by decide) (by decide) (by decide) (by decide) (by decide) (by decide)⟩

/-- C10: the canonical header line itself has 22 comma-split fields and
passes validation; when the measurement command outputs the header line on
a successful run, that line is appended to the CSV as a data row, and a
subsequent `ensure_csv_header` leaves the file untouched because the
file's first line still equals the canonical header. -/
theorem header_line_is_valid_row (path now : String) :
    validate_csv_line CSV_HEADER = true ∧
    (mainStats envHdrW cfgW "T" (some (CSV_HEADER ++ "\n"))).csv =
      some (CSV_HEADER ++ "\n" ++ (CSV_HEADER ++ "\n")) ∧
    (mainStats envHdrW cfgW "T" (some (CSV_HEADER ++ "\n"))).events =
      [⟨"T", "INFO", "speedtest", "OK", [("iface", "wlp2s0"), ("gateway_ip", "10.0.0.1")]⟩] ∧
    ensure_csv_header path now (some (CSV_HEADER ++ "\n" ++ (CSV_HEADER ++ "\n"))) =
      (some (CSV_HEADER ++ "\n" ++ (CSV_HEADER ++ "\n")), []) := by
  refine ⟨by decide, by decide, by decide, ?_⟩
  exact ensure_noop path now _ (by decide)

end Speedtest
